import Mathlib

/-!
Verification of the Takeoff foundation-plan analyzer frontend core.

This file gives a shallow embedding, in Lean 4, of the TypeScript code that
the specification's claims are about:

* `src/Frontend/components/walls-table.tsx` — `parseFeetInches`,
  `formatFeetInches` (the feet-inches dimension parser/formatter);
* `src/Frontend/app/api/analyses/[id]/update-wall/route.ts` — the `POST`
  handler (wall-length edit, inline length parser, ICF metric recompute);
* `src/Frontend/components/icf-materials-quotation.tsx` — the settings
  auto-adjustment rules and the materials quotation calculation.

JavaScript numbers are modelled as follows: integer-valued results of
`parseInt` are `Option Int` (with `none` playing the role of `NaN`), and
general numeric values are rationals `ℚ` (with `Option ℚ` where `NaN` can
propagate).  Strings are modelled as Lean `String` / `List Char`.
-/

unseal Rat.add Rat.mul Rat.inv Rat.sub

/-! ### Characters used by the parsers -/

/-- The straight double-quote character `"` (the inch glyph). -/
def quoteChar : Char := Char.ofNat 34

/-- The apostrophe character (the feet glyph). -/
def apostropheChar : Char := Char.ofNat 39

/-- The backslash character. -/
def backslashChar : Char := Char.ofNat 92

/-- Model of the JavaScript radix-10 digit test used by `parseInt`:
the ASCII digits `0`–`9`. -/
def isDigitChar (c : Char) : Bool := 48 ≤ c.toNat && c.toNat ≤ 57

/-- Model of the whitespace characters stripped by JavaScript `trim()` /
leading-whitespace skipping of `parseInt` (ASCII fragment). -/
def jsWhitespace (c : Char) : Bool :=
  c = ' ' || c = '\t' || c = '\n' || c = '\r' || c = Char.ofNat 11 || c = Char.ofNat 12

/-- Model of JavaScript `String.prototype.trim()` on a character list. -/
def trimChars (cs : List Char) : List Char :=
  ((cs.dropWhile jsWhitespace).reverse.dropWhile jsWhitespace).reverse

/-- Model of a global single-character regex deletion, as in the source's
`replace` calls that delete every inch symbol or every minus sign. -/
def removeChar (c : Char) (cs : List Char) : List Char :=
  cs.filter (fun x => !(x = c))

/-- Model of JavaScript `split(sep)` for a one-character separator:
splits at every occurrence, keeping empty pieces.  The result is
always non-empty. -/
def splitOnChar (sep : Char) : List Char → List (List Char)
  | [] => [[]]
  | c :: rest =>
    match splitOnChar sep rest with
    | [] => [[]]
    | h :: t => if c = sep then [] :: h :: t else (c :: h) :: t

/-- Model of `.replace(/\\"/g, '"')` — a global left-to-right,
non-overlapping replacement of the two-character sequence `\"` by `"`. -/
def replaceBackslashQuote : List Char → List Char
  | [] => []
  | [c] => [c]
  | c1 :: c2 :: rest =>
    if c1 = backslashChar ∧ c2 = quoteChar then
      quoteChar :: replaceBackslashQuote rest
    else
      c1 :: replaceBackslashQuote (c2 :: rest)

/-- Model of `.replace(/"/g, '"')` — a global replacement of the straight
double quote by itself (the source writes the same straight quote on both
sides, so this is the identity; it is kept because the source performs it). -/
def replaceQuoteQuote (cs : List Char) : List Char :=
  cs.map (fun c => if c = quoteChar then quoteChar else c)

/-! ### Decimal digits and JavaScript number parsing/printing -/

/-- Numeric value of an ASCII digit character. -/
def digitVal (c : Char) : Nat := c.toNat - 48

/-- Value of a big-endian list of ASCII digit characters. -/
def digitsToNat (ds : List Char) : Nat :=
  ds.foldl (fun acc c => acc * 10 + digitVal c) 0

/-- Digit-emitting worker for `natDigits`, structurally recursive on a fuel
argument so that it evaluates by kernel reduction. -/
def natDigitsAux : Nat → Nat → List Char
  | 0, _ => []
  | fuel + 1, n =>
    if n < 10 then [Nat.digitChar n]
    else natDigitsAux fuel (n / 10) ++ [Nat.digitChar (n % 10)]

/-- Big-endian decimal digit characters of a natural number
(model of JavaScript number-to-string for non-negative integers). -/
def natDigits (n : Nat) : List Char := natDigitsAux (n + 1) n

/-- Model of JavaScript number-to-string (template-literal interpolation)
for integer-valued numbers. -/
def jsIntToChars (n : Int) : List Char :=
  if n < 0 then '-' :: natDigits n.natAbs else natDigits n.toNat

/-- The maximal leading run of decimal digits, as a value; `none` when the
run is empty (the `NaN` case of `parseInt`). -/
def leadingDigits (cs : List Char) : Option Nat :=
  let ds := cs.takeWhile isDigitChar
  if ds = [] then none else some (digitsToNat ds)

/-- Model of JavaScript `parseInt(s, 10)` on a character list: skip leading
whitespace, accept one optional sign, then read the maximal digit run;
`none` models `NaN`.  (`parseInt("-0")` is `-0`, which is numerically `0`,
so the signed value is returned as a plain `Int`.) -/
def jsParseIntChars (cs : List Char) : Option Int :=
  let t := trimChars cs
  match t with
  | [] => none
  | c :: rest =>
    if c = '-' then (leadingDigits rest).map (fun n => -(n : Int))
    else if c = '+' then (leadingDigits rest).map (fun n => (n : Int))
    else (leadingDigits t).map (fun n => (n : Int))

/-- `parseInt(s, 10)` on a Lean `String`. -/
def jsParseInt (s : String) : Option Int := jsParseIntChars s.toList

/-- Model of JavaScript `parseFloat(s)` (without exponent notation, which
none of the stored values use): optional sign, integer part, optional
fractional part; `none` models `NaN`. -/
def jsParseFloatChars (cs : List Char) : Option ℚ :=
  let t := trimChars cs
  let su : ℚ × List Char :=
    match t with
    | '-' :: rest => (-1, rest)
    | '+' :: rest => (1, rest)
    | _ => (1, t)
  let intPart := su.2.takeWhile isDigitChar
  let rest1 := su.2.drop intPart.length
  let fracPart : List Char :=
    match rest1 with
    | c :: r => if c = '.' then r.takeWhile isDigitChar else []
    | [] => []
  if intPart = [] ∧ fracPart = [] then none
  else some (su.1 * ((digitsToNat intPart : ℚ) +
    (digitsToNat fracPart : ℚ) / (10 : ℚ) ^ fracPart.length))

/-- `parseFloat(s)` on a Lean `String`. -/
def jsParseFloat (s : String) : Option ℚ := jsParseFloatChars s.toList

/-- Model of JavaScript `Math.ceil` on a rational. -/
def jsCeil (q : ℚ) : Int := q.ceil

/-- Model of JavaScript `Number.prototype.toFixed(1)` on a rational:
round to the nearest tenth, ties toward positive infinity (the ECMAScript
"pick the larger n" rule), and print with one digit after the point. -/
def toFixed1 (q : ℚ) : String :=
  let n : Int := (q * 10 + 1 / 2).floor
  let sign := if n < 0 then "-" else ""
  let m := n.natAbs
  sign ++ String.mk (natDigits (m / 10)) ++ "." ++ String.mk (natDigits (m % 10))

/-- `toFixed(1)` lifted to `NaN`-propagating values: `(NaN).toFixed(1)`
is the string `"NaN"`. -/
def jsToFixed1 (q : Option ℚ) : String :=
  match q with
  | none => "NaN"
  | some q => toFixed1 q

/-! ### The walls-table dimension parser/formatter
(`src/Frontend/components/walls-table.tsx`, lines 33–63) -/

/-- `parseFeetInches` from `walls-table.tsx`: normalize quotes, split on
the feet symbol, `parseInt` the feet token; for the inches token remove
the inch symbol **and any `-` signs**, trim, and `parseInt` it unless it
is empty or `"0"`.  (The surrounding `try`/`catch` is unreachable for
string inputs: none of the string operations throw and `parseInt` returns
`NaN` rather than throwing, so it is not modelled.) -/
def parseFeetInches (lengthStr : String) : Option Int × Option Int :=
  let cleaned := replaceQuoteQuote (replaceBackslashQuote lengthStr.toList)
  let parts := splitOnChar apostropheChar cleaned
  let feet := jsParseIntChars (parts.headD [])
  let inches : Option Int :=
    if parts.length > 1 then
      let inchPart := trimChars (removeChar '-' (removeChar quoteChar (parts.getD 1 [])))
      if inchPart ≠ [] ∧ inchPart ≠ ['0'] then jsParseIntChars inchPart else some 0
    else some 0
  (feet, inches)

/-- `formatFeetInches` from `walls-table.tsx`: the template literal
`` `${feet}'-${inches}"` ``. -/
def formatFeetInches (feet inches : Int) : String :=
  String.mk (jsIntToChars feet ++ apostropheChar :: '-' :: jsIntToChars inches ++ [quoteChar])

/-! ### The update-wall route's inline length parser
(`src/Frontend/app/api/analyses/[id]/update-wall/route.ts`, lines 50–67) -/

/-- The inline per-wall length parser of the `POST` handler in
`update-wall/route.ts`: identical to `parseFeetInches` **except that the
inches token only has the inch symbol removed — `-` signs are kept**. -/
def routeParseLength (lengthStr : String) : Option Int × Option Int :=
  let cleaned := replaceQuoteQuote (replaceBackslashQuote lengthStr.toList)
  let parts := splitOnChar apostropheChar cleaned
  let feet := jsParseIntChars (parts.headD [])
  let inches : Option Int :=
    if parts.length > 1 then
      let inchPart := trimChars (removeChar quoteChar (parts.getD 1 []))
      if inchPart ≠ [] ∧ inchPart ≠ ['0'] then jsParseIntChars inchPart else some 0
    else some 0
  (feet, inches)

/-- `route.ts` line 66: `const lengthInFeet = feet + (inches / 12)`,
with `NaN` propagation. -/
def routeWallFeet (lengthStr : String) : Option ℚ :=
  match routeParseLength lengthStr with
  | (some f, some i) => some ((f : ℚ) + (i : ℚ) / 12)
  | _ => none

/-- Modelled from the spec (§4.1): `to_decimal_feet(feet, inches) = feet +
inches / 12`.  Used to compare the code's behaviour against the spec's
arithmetic; not itself part of the source. -/
def to_decimal_feet (feet inches : Int) : ℚ := (feet : ℚ) + (inches : ℚ) / 12

/-! ### The analysis record (data model of `analysis_results.json`) -/

/-- A wall record, as stored in `analysis_results.json` and displayed by
`walls-table.tsx` (its `Wall` interface). -/
structure Wall where
  id : Int
  start_corner_id : Int
  end_corner_id : Int
  start_x : ℚ
  start_y : ℚ
  end_x : ℚ
  end_y : ℚ
  length_pixels : ℚ
  length : String
deriving DecidableEq, Inhabited

/-- A corner record of the analysis. -/
structure Corner where
  id : Int
  x : ℚ
  y : ℚ
deriving DecidableEq, Inhabited

/-- The `assumptions` sub-object of `icf_metrics`.  Only
`wall_height_feet` is read by the code under study; the other entries are
kept opaque in `rest`. -/
structure Assumptions where
  wall_height_feet : String
  rest : List (String × String)
deriving DecidableEq, Inhabited

/-- The `icf_metrics` sub-object of the analysis record.  Stored values
are modelled as the strings of the JSON file (the route reads them with
`parseFloat` and writes them with `toFixed(1)`); fields the route never
touches are kept opaque in `rest`. -/
structure IcfMetricsRec where
  total_linear_feet : String
  wall_area_sqft : String
  concrete_volume_cuyd : String
  wall_thickness_feet : String
  assumptions : Assumptions
  rest : List (String × String)
deriving DecidableEq, Inhabited

/-- The whole `analysis_results.json` record: walls, corners, optional
`icf_metrics`, and all remaining fields kept opaque in `rest`. -/
structure AnalysisData where
  walls : List Wall
  corners : List Corner
  icf_metrics : Option IcfMetricsRec
  rest : List (String × String)
deriving DecidableEq, Inhabited

/-! ### The update-wall `POST` route
(`src/Frontend/app/api/analyses/[id]/update-wall/route.ts`) -/

/-- `NaN`-propagating multiplication of JavaScript numbers. -/
def mulNaN (a b : Option ℚ) : Option ℚ :=
  match a, b with
  | some a, some b => some (a * b)
  | _, _ => none

/-- `NaN`-propagating division by a (non-`NaN`) constant. -/
def divNaN (a : Option ℚ) (b : ℚ) : Option ℚ := a.map (fun x => x / b)

/-- `route.ts` lines 48–68: the accumulation
`totalLinearFeet += feet + inches / 12` over all walls, using the route's
inline parser.  `none` models a `NaN` total. -/
def totalLinearFeet (walls : List Wall) : Option ℚ :=
  walls.foldl (fun acc w =>
    match acc, routeWallFeet w.length with
    | some a, some x => some (a + x)
    | _, _ => none) (some 0)

/-- `route.ts` lines 70–80: overwrite `total_linear_feet`,
`wall_area_sqft` and `concrete_volume_cuyd` of the metrics from the walls
(`toFixed(1)` strings), reading `wall_height_feet` and
`wall_thickness_feet` with `parseFloat`. -/
def recomputeMetrics (walls : List Wall) (m : IcfMetricsRec) : IcfMetricsRec :=
  let total := totalLinearFeet walls
  let wallHeight := jsParseFloat m.assumptions.wall_height_feet
  let wallThicknessFeet := jsParseFloat m.wall_thickness_feet
  let wallArea := mulNaN total wallHeight
  let concreteCuFt := mulNaN wallArea wallThicknessFeet
  { m with
    total_linear_feet := jsToFixed1 total
    wall_area_sqft := jsToFixed1 wallArea
    concrete_volume_cuyd := jsToFixed1 (divNaN concreteCuFt 27) }

/-- The three response shapes of the `POST` handler that do not involve an
I/O failure: HTTP 400 (missing parameters), HTTP 404 (unknown wall id) and
HTTP 200 (the success payload with `updatedWall` and `updatedMetrics`;
`updatedMetrics` is `none` exactly when the record has no `icf_metrics`,
in which case the JSON field is `undefined`). -/
inductive RouteResponse where
  | badRequest (error : String)
  | notFound (error : String)
  | ok (message : String) (updatedWall : Wall) (updatedMetrics : Option IcfMetricsRec)
deriving DecidableEq

/-- The HTTP status code attached to each response shape in the source. -/
def responseStatus : RouteResponse → Nat
  | .badRequest _ => 400
  | .notFound _ => 404
  | .ok _ _ _ => 200

/-- The `POST` handler of `update-wall/route.ts`, given the parsed
contents of the stored `analysis_results.json` (`data`), the path
parameter `analysisId` and the body fields `wallId` / `newLength`.
Returns the response together with the record written back to disk
(`none` when `writeFile` is never reached, i.e. the stored record is left
untouched).  The falsy-parameter guard of line 13 is the emptiness /
zero test on the three parameters. -/
def updateWallPost (analysisId : String) (wallId : Int) (newLength : String)
    (data : AnalysisData) : RouteResponse × Option AnalysisData :=
  if analysisId = "" ∨ wallId = 0 ∨ newLength = "" then
    (.badRequest "Missing required parameters", none)
  else
    match data.walls.findIdx? (fun w => w.id == wallId) with
    | none => (.notFound ("Wall with ID " ++ toString wallId ++ " not found"), none)
    | some wallIndex =>
      let updatedWalls :=
        match data.walls.get? wallIndex with
        | some w => data.walls.set wallIndex { w with length := newLength }
        | none => data.walls
      let newMetrics := data.icf_metrics.map (recomputeMetrics updatedWalls)
      let newData := { data with walls := updatedWalls, icf_metrics := newMetrics }
      (.ok ("Wall " ++ toString wallId ++ " updated successfully")
        ((updatedWalls.get? wallIndex).getD default) newMetrics,
       some newData)

/-! ### ICF settings and the auto-adjustment rules
(`src/Frontend/components/icf-materials-quotation.tsx`) -/

/-- The `ICFSettings` interface of `icf-materials-quotation.tsx`. -/
structure ICFSettings where
  panelWidth : ℚ
  panelHeight : ℚ
  formThickness : ℚ
  concreteCore : ℚ
  verticalRebarType : String
  verticalRebarSpacing : ℚ
  horizontalRebarType : String
  horizontalRebarCourses : Int
  concretePsi : ℚ
  concreteSlump : ℚ
  concreteWasteFactor : ℚ
  formAlignmentSpacing : ℚ
  bracingSpacing : ℚ
  windowDoorBucks : Bool
  fasteningStrips : Bool
deriving DecidableEq

/-- The default settings seeded by `useState` (lines 94–114). -/
def defaultSettings : ICFSettings where
  panelWidth := 16
  panelHeight := 48
  formThickness := 5
  concreteCore := 6
  verticalRebarType := "#4"
  verticalRebarSpacing := 24
  horizontalRebarType := "#4"
  horizontalRebarCourses := 3
  concretePsi := 3500
  concreteSlump := 11 / 2
  concreteWasteFactor := 10
  formAlignmentSpacing := 6
  bracingSpacing := 5
  windowDoorBucks := true
  fasteningStrips := true

/-- The initial settings adjustment (lines 166–192), given the wall height
and wall thickness already parsed from the analysis data (the parsing with
fallbacks is lines 149–164): sync `concreteCore` to the thickness, pick
rebar type/spacing from height (rule 1) else thickness (rule 2), set the
horizontal courses from height, and tighten bracing for tall walls. -/
def initialAdjust (settings : ICFSettings) (wallHeightFeet : ℚ)
    (wallThicknessInches : Int) : ICFSettings :=
  let s := { settings with concreteCore := (wallThicknessInches : ℚ) }
  let s :=
    if wallHeightFeet > 9 then
      { s with verticalRebarType := "#5", verticalRebarSpacing := 16 }
    else if wallThicknessInches ≥ 8 then
      { s with verticalRebarType := "#5", verticalRebarSpacing := 24 }
    else s
  let s := { s with horizontalRebarCourses := max 3 (jsCeil (wallHeightFeet / 3)) }
  if wallHeightFeet > 9 then { s with bracingSpacing := 4 } else s

/-- The tagged payload of the `icf-dimension-updated` settings-change
event. -/
inductive DimensionEvent where
  | wall_thickness (value : ℚ)
  | wall_height (value : ℚ)
deriving DecidableEq

/-- The `handleDimensionUpdate` event listener (lines 197–234). -/
def handleDimensionUpdate (settings : ICFSettings) : DimensionEvent → ICFSettings
  | .wall_thickness value =>
    let s := { settings with concreteCore := value }
    if value ≥ 8 then { s with verticalRebarType := "#5" }
    else { s with verticalRebarType := "#4" }
  | .wall_height value =>
    let s :=
      if value > 9 then
        { settings with
          verticalRebarType := "#5"
          verticalRebarSpacing := 16
          bracingSpacing := 4 }
      else
        let s1 :=
          if settings.concreteCore < 8 then
            { settings with verticalRebarType := "#4", verticalRebarSpacing := 24 }
          else settings
        { s1 with bracingSpacing := 5 }
    { s with horizontalRebarCourses := max 3 (jsCeil (value / 3)) }

/-! ### The materials quotation calculation (lines 244–355) -/

/-- The `ICFMaterialsCalculation` output record, flattened: each field is
one leaf of the nested interface of the source. -/
structure ICFMaterialsCalculation where
  standardPanelsCount : Int
  standardPanelsAreaSqft : ℚ
  cornerPanelsCount : ℚ
  verticalRebarType : String
  verticalRebarCount : Int
  verticalRebarLengthFeet : ℚ
  horizontalRebarType : String
  horizontalRebarCount : Int
  horizontalRebarLengthFeet : ℚ
  concreteStrengthPsi : ℚ
  concreteSlumpInches : ℚ
  concreteVolumeCuYd : ℚ
  concreteVolumeWithWaste : ℚ
  formAlignmentCount : Int
  bracingCount : Int
  windowDoorBucksLinearFeet : ℚ
  fasteningStripsCount : Int
  crewDays : ℚ
  pourTimeHours : ℚ
deriving DecidableEq

/-- The materials calculation of lines 254–350, as a pure function of the
settings and the four numbers read from the stored metrics
(`total_linear_feet`, `total_corners`, `wall_height_feet`,
`wall_area_sqft`). -/
def calcMaterials (settings : ICFSettings) (totalLinearFeet totalCorners
    wallHeightFeet wallAreaSqft : ℚ) : ICFMaterialsCalculation :=
  let panelWidthFeet := settings.panelWidth / 12
  let panelHeightFeet := settings.panelHeight / 12
  let panelAreaSqft := panelWidthFeet * panelHeightFeet
  let cornerPanelLinearFeet := totalCorners * 2
  let standardPanelLinearFeet := totalLinearFeet - cornerPanelLinearFeet
  let standardPanelsCount := jsCeil (standardPanelLinearFeet / panelWidthFeet)
  let standardPanelsArea := (standardPanelsCount : ℚ) * panelAreaSqft
  let cornerPanelsCount := totalCorners
  let verticalRebarCount := jsCeil (totalLinearFeet * 12 / settings.verticalRebarSpacing)
  let verticalRebarLengthFeet := (verticalRebarCount : ℚ) * wallHeightFeet
  let horizontalRebarCount := settings.horizontalRebarCourses
  let horizontalRebarLengthFeet := (horizontalRebarCount : ℚ) * totalLinearFeet
  -- the source literals 0.016 and 0.1 below are written as exact rationals
  let concreteFactor := settings.concreteCore / 6 * (16 / 1000)
  let concreteVolumeCuYd := wallAreaSqft * concreteFactor
  let concreteVolumeWithWaste := concreteVolumeCuYd * (1 + settings.concreteWasteFactor / 100)
  let formAlignmentCount := jsCeil (totalLinearFeet / settings.formAlignmentSpacing)
  let bracingCount := jsCeil (wallHeightFeet / settings.bracingSpacing * totalLinearFeet / 20)
  let windowDoorBucksLinearFeet :=
    if settings.windowDoorBucks then totalLinearFeet * (1 / 10) else 0
  let fasteningStripsCount :=
    if settings.fasteningStrips then jsCeil (wallAreaSqft / 4) else 0
  let crewDays := wallAreaSqft / 650
  let pourTimeHours := wallHeightFeet / 4
  { standardPanelsCount := standardPanelsCount
    standardPanelsAreaSqft := standardPanelsArea
    cornerPanelsCount := cornerPanelsCount
    verticalRebarType := settings.verticalRebarType
    verticalRebarCount := verticalRebarCount
    verticalRebarLengthFeet := verticalRebarLengthFeet
    horizontalRebarType := settings.horizontalRebarType
    horizontalRebarCount := horizontalRebarCount
    horizontalRebarLengthFeet := horizontalRebarLengthFeet
    concreteStrengthPsi := settings.concretePsi
    concreteSlumpInches := settings.concreteSlump
    concreteVolumeCuYd := concreteVolumeCuYd
    concreteVolumeWithWaste := concreteVolumeWithWaste
    formAlignmentCount := formAlignmentCount
    bracingCount := bracingCount
    windowDoorBucksLinearFeet := windowDoorBucksLinearFeet
    fasteningStripsCount := fasteningStripsCount
    crewDays := crewDays
    pourTimeHours := pourTimeHours }

/-! ### Helper lemmas: decimal digits -/

theorem digitsToNat_append_singleton (xs : List Char) (c : Char) :
    digitsToNat (xs ++ [c]) = digitsToNat xs * 10 + digitVal c := by
  simp [digitsToNat, List.foldl_append]

theorem digitChar_isDigit : ∀ m, m < 10 → isDigitChar (Nat.digitChar m) = true := by decide

theorem digitChar_val : ∀ m, m < 10 → digitVal (Nat.digitChar m) = m := by decide

theorem natDigitsAux_spec : ∀ fuel n, n < fuel →
    natDigitsAux fuel n ≠ [] ∧
    (∀ c ∈ natDigitsAux fuel n, isDigitChar c = true) ∧
    digitsToNat (natDigitsAux fuel n) = n := by
  intro fuel
  induction fuel with
  | zero => intro n hn; omega
  | succ fuel ih =>
    intro n hn
    rw [natDigitsAux]
    by_cases h : n < 10
    · rw [if_pos h]
      refine ⟨by simp, ?_, ?_⟩
      · intro c hc
        rw [List.mem_singleton] at hc
        subst hc
        exact digitChar_isDigit n h
      · simp [digitsToNat, digitVal]
        exact digitChar_val n h
    · rw [if_neg h]
      have hdiv : n / 10 < fuel := by
        have h1 : n / 10 < n := Nat.div_lt_self (by omega) (by omega)
        omega
      obtain ⟨hne, hdig, hval⟩ := ih (n / 10) hdiv
      refine ⟨by simp, ?_, ?_⟩
      · intro c hc
        rcases List.mem_append.mp hc with hc | hc
        · exact hdig c hc
        · rw [List.mem_singleton] at hc
          subst hc
          exact digitChar_isDigit _ (Nat.mod_lt n (by omega))
      · rw [digitsToNat_append_singleton, hval, digitChar_val _ (Nat.mod_lt n (by omega))]
        omega

theorem natDigits_ne_nil (n : Nat) : natDigits n ≠ [] :=
  (natDigitsAux_spec (n + 1) n (by omega)).1

theorem natDigits_isDigit (n : Nat) : ∀ c ∈ natDigits n, isDigitChar c = true :=
  (natDigitsAux_spec (n + 1) n (by omega)).2.1

theorem digitsToNat_natDigits (n : Nat) : digitsToNat (natDigits n) = n :=
  (natDigitsAux_spec (n + 1) n (by omega)).2.2

/-- A digit character is none of the structural characters of the
feet-inches format and is not whitespace. -/
theorem digit_char_props (c : Char) (h : isDigitChar c = true) :
    c ≠ apostropheChar ∧ c ≠ quoteChar ∧ c ≠ backslashChar ∧ c ≠ '-' ∧ c ≠ '+' ∧
    jsWhitespace c = false := by
  have hb : 48 ≤ c.toNat ∧ c.toNat ≤ 57 := by
    simpa [isDigitChar] using h
  refine ⟨?_, ?_, ?_, ?_, ?_, ?_⟩
  · intro hc; subst hc; revert h; decide
  · intro hc; subst hc; revert h; decide
  · intro hc; subst hc; revert h; decide
  · intro hc; subst hc; revert h; decide
  · intro hc; subst hc; revert h; decide
  · by_cases hw : jsWhitespace c = true
    · have hw1 : c = ' ' ∨ c = '\t' ∨ c = '\n' ∨
          c = '\r' ∨ c = Char.ofNat 11 ∨ c = Char.ofNat 12 := by
        have hw0 := hw
        simp [jsWhitespace] at hw0
        tauto
      rcases hw1 with h1 | h1 | h1 | h1 | h1 | h1 <;> (subst h1; revert h; decide)
    · simpa using hw

/-! ### Helper lemmas: the string operations -/

theorem dropWhile_eq_self_of_none (p : Char → Bool) (cs : List Char)
    (h : ∀ c ∈ cs, p c = false) : cs.dropWhile p = cs := by
  cases cs with
  | nil => rfl
  | cons c t => simp [List.dropWhile, h c (by simp)]

theorem trimChars_eq_self (cs : List Char) (h : ∀ c ∈ cs, jsWhitespace c = false) :
    trimChars cs = cs := by
  unfold trimChars
  rw [dropWhile_eq_self_of_none _ _ h,
    dropWhile_eq_self_of_none _ _ (by intro c hc; exact h c (List.mem_reverse.mp hc)),
    List.reverse_reverse]

theorem removeChar_eq_self (c : Char) (cs : List Char) (h : ∀ x ∈ cs, x ≠ c) :
    removeChar c cs = cs := by
  rw [removeChar, List.filter_eq_self]
  intro a ha
  simpa using h a ha

theorem removeChar_append (c : Char) (xs ys : List Char) :
    removeChar c (xs ++ ys) = removeChar c xs ++ removeChar c ys := by
  simp [removeChar]

theorem removeChar_self_singleton (c : Char) : removeChar c [c] = [] := by
  simp [removeChar]

theorem replaceQuoteQuote_eq_self (cs : List Char) : replaceQuoteQuote cs = cs := by
  induction cs with
  | nil => rfl
  | cons c t ih =>
    simp only [replaceQuoteQuote, List.map_cons] at *
    rw [ih]
    by_cases h : c = quoteChar
    · subst h; simp
    · simp [h]

theorem replaceBackslashQuote_eq_self :
    ∀ cs : List Char, (∀ c ∈ cs, c ≠ backslashChar) → replaceBackslashQuote cs = cs
  | [], _ => rfl
  | [c], _ => rfl
  | c1 :: c2 :: rest, h => by
    rw [replaceBackslashQuote, if_neg]
    · rw [replaceBackslashQuote_eq_self (c2 :: rest)
        (by intro c hc; exact h c (List.mem_cons_of_mem c1 hc))]
    · intro hand
      exact h c1 (by simp) hand.1

theorem splitOnChar_ne_nil (sep : Char) (cs : List Char) : splitOnChar sep cs ≠ [] := by
  cases cs with
  | nil => simp [splitOnChar]
  | cons c rest =>
    rw [splitOnChar]
    cases h : splitOnChar sep rest with
    | nil => simp
    | cons a t =>
      by_cases hc : c = sep
      · simp [hc]
      · simp [hc]

theorem splitOnChar_no_sep (sep : Char) :
    ∀ cs : List Char, (∀ c ∈ cs, c ≠ sep) → splitOnChar sep cs = [cs]
  | [], _ => rfl
  | c :: rest, h => by
    rw [splitOnChar, splitOnChar_no_sep sep rest
      (by intro x hx; exact h x (List.mem_cons_of_mem c hx))]
    simp [h c (by simp)]

theorem splitOnChar_append (sep : Char) :
    ∀ (xs : List Char) (ys : List Char), (∀ c ∈ xs, c ≠ sep) →
      splitOnChar sep (xs ++ sep :: ys) = xs :: splitOnChar sep ys
  | [], ys, _ => by
    rw [List.nil_append, splitOnChar]
    cases h : splitOnChar sep ys with
    | nil => exact absurd h (splitOnChar_ne_nil sep ys)
    | cons a t => simp
  | x :: xs, ys, h => by
    rw [List.cons_append, splitOnChar,
      splitOnChar_append sep xs ys (by intro c hc; exact h c (List.mem_cons_of_mem x hc))]
    simp [h x (by simp)]

/-! ### Helper lemmas: `parseInt` on digit strings -/

theorem leadingDigits_all_digits (cs : List Char) (hne : cs ≠ [])
    (h : ∀ c ∈ cs, isDigitChar c = true) :
    leadingDigits cs = some (digitsToNat cs) := by
  rw [leadingDigits, List.takeWhile_eq_self_iff.mpr h]
  simp [hne]

theorem jsParseIntChars_digits (cs : List Char) (hne : cs ≠ [])
    (h : ∀ c ∈ cs, isDigitChar c = true) :
    jsParseIntChars cs = some ((digitsToNat cs : Int)) := by
  unfold jsParseIntChars
  rw [trimChars_eq_self cs (fun c hc => (digit_char_props c (h c hc)).2.2.2.2.2)]
  cases cs with
  | nil => exact absurd rfl hne
  | cons c rest =>
    have hprops := digit_char_props c (h c (by simp))
    dsimp only
    rw [if_neg hprops.2.2.2.1, if_neg hprops.2.2.2.2.1,
      leadingDigits_all_digits _ (by simp) h]
    rfl

theorem removeChar_cons_of_ne (c x : Char) (xs : List Char) (h : x ≠ c) :
    removeChar c (x :: xs) = x :: removeChar c xs := by
  simp [removeChar, h]

theorem removeChar_cons_self (c : Char) (xs : List Char) :
    removeChar c (c :: xs) = removeChar c xs := by
  simp [removeChar]

/-- C7: for all integers `f ≥ 0` and `0 ≤ i ≤ 11`, parsing the formatted
string round-trips exactly: `parseFeetInches (formatFeetInches f i) = (f, i)`
(both components parsed, i.e. `(some f, some i)`). -/
theorem C7_parse_format_roundtrip (f i : Int) (hf : 0 ≤ f) (hi0 : 0 ≤ i) (hi : i ≤ 11) :
    parseFeetInches (formatFeetInches f i) = (some f, some i) := by
  have hLdig := natDigits_isDigit f.toNat
  have hMdig := natDigits_isDigit i.toNat
  have hLne := natDigits_ne_nil f.toNat
  have hMne := natDigits_ne_nil i.toNat
  have hLf : digitsToNat (natDigits f.toNat) = f.toNat := digitsToNat_natDigits _
  have hMi : digitsToNat (natDigits i.toNat) = i.toNat := digitsToNat_natDigits _
  have hraw : (formatFeetInches f i).toList
      = natDigits f.toNat ++ apostropheChar :: '-' :: (natDigits i.toNat ++ [quoteChar]) := by
    unfold formatFeetInches jsIntToChars
    rw [if_neg (by omega), if_neg (by omega)]
    simp [String.toList, List.append_assoc]
  have hclean : replaceQuoteQuote (replaceBackslashQuote (formatFeetInches f i).toList)
      = natDigits f.toNat ++ apostropheChar :: '-' :: (natDigits i.toNat ++ [quoteChar]) := by
    rw [hraw, replaceBackslashQuote_eq_self, replaceQuoteQuote_eq_self]
    intro c hc
    simp at hc
    rcases hc with hc | hc | hc | hc | hc
    · exact (digit_char_props c (hLdig c hc)).2.2.1
    · subst hc; decide
    · subst hc; decide
    · exact (digit_char_props c (hMdig c hc)).2.2.1
    · subst hc; decide
  have hsplit : splitOnChar apostropheChar
        (natDigits f.toNat ++ apostropheChar :: '-' :: (natDigits i.toNat ++ [quoteChar]))
      = [natDigits f.toNat, '-' :: (natDigits i.toNat ++ [quoteChar])] := by
    rw [splitOnChar_append apostropheChar _ _
      (fun c hc => (digit_char_props c (hLdig c hc)).1)]
    rw [splitOnChar_no_sep apostropheChar _ ?_]
    intro c hc
    simp at hc
    rcases hc with hc | hc | hc
    · subst hc; decide
    · exact (digit_char_props c (hMdig c hc)).1
    · subst hc; decide
  have hfeet : jsParseIntChars (natDigits f.toNat) = some f := by
    rw [jsParseIntChars_digits _ hLne hLdig, hLf, Int.toNat_of_nonneg hf]
  have hinch : trimChars (removeChar '-' (removeChar quoteChar
        ('-' :: (natDigits i.toNat ++ [quoteChar])))) = natDigits i.toNat := by
    rw [removeChar_cons_of_ne quoteChar '-' _ (by decide),
      removeChar_append,
      removeChar_eq_self quoteChar _
        (fun x hx => (digit_char_props x (hMdig x hx)).2.1),
      removeChar_self_singleton, List.append_nil,
      removeChar_cons_self,
      removeChar_eq_self '-' _
        (fun x hx => (digit_char_props x (hMdig x hx)).2.2.2.1),
      trimChars_eq_self _
        (fun x hx => (digit_char_props x (hMdig x hx)).2.2.2.2.2)]
  unfold parseFeetInches
  dsimp only
  rw [hclean, hsplit]
  simp only [List.headD_cons, List.getD_cons_succ, List.getD_cons_zero,
    List.length_cons, List.length_nil]
  rw [hfeet]
  rw [if_pos (by norm_num)]
  rw [hinch]
  by_cases hz : i = 0
  · subst hz
    rw [show natDigits (0 : Int).toNat = ['0'] from by decide]
    rw [if_neg (by simp)]
  · have hM0 : natDigits i.toNat ≠ ['0'] := by
      intro heq
      rw [heq, show digitsToNat ['0'] = 0 from by decide] at hMi
      omega
    rw [if_pos ⟨hMne, hM0⟩, jsParseIntChars_digits _ hMne hMdig, hMi,
      Int.toNat_of_nonneg hi0]

/-- Witness for C7: the round-trip theorem applied at the concrete input
`(34, 5)`, i.e. the string `34'-5"`. -/
theorem C7_parse_format_roundtrip_witness :
    (0 : Int) ≤ 34 ∧ (0 : Int) ≤ 5 ∧ (5 : Int) ≤ 11 ∧
    parseFeetInches (formatFeetInches 34 5) = (some 34, some 5) :=
  ⟨by decide, by decide, by decide,
    C7_parse_format_roundtrip 34 5 (by decide) (by decide) (by decide)⟩

/-! ### Concrete example records used by evaluations and witnesses -/

/-- A stored wall with the canonical length string `10'-0"`. -/
def exWall : Wall where
  id := 1
  start_corner_id := 10
  end_corner_id := 11
  start_x := 0
  start_y := 0
  end_x := 120
  end_y := 0
  length_pixels := 120
  length := "10'-0\""

/-- Stored metrics consistent with `exWall` (10 linear feet, 8 ft height,
6-inch = 0.5 ft thickness). -/
def exMetrics : IcfMetricsRec where
  total_linear_feet := "10.0"
  wall_area_sqft := "80.0"
  concrete_volume_cuyd := "1.5"
  wall_thickness_feet := "0.5"
  assumptions := { wall_height_feet := "8", rest := [] }
  rest := []

/-- A stored analysis record with one wall, one corner and metrics. -/
def exData : AnalysisData where
  walls := [exWall]
  corners := [{ id := 10, x := 0, y := 0 }]
  icf_metrics := some exMetrics
  rest := [("metadata", "m")]

/-- A stored analysis record whose only wall has id `0` and which has no
`icf_metrics` field. -/
def exData0 : AnalysisData where
  walls := [{ exWall with id := 0 }]
  corners := []
  icf_metrics := none
  rest := []

/-! ### Claim C2 -/

/-- C2: the claim states that for `<feet>'-<inches>"` strings both parser
implementations ignore a sign on the inches token and yield the
non-negative pair, never `feet - inches/12`.  Evaluating both parsers on
the canonical string `34'-5"` (exactly what `formatFeetInches 34 5`
emits): the walls-table parser does return `(34, 5)`, but the route's
inline parser keeps the separator dash as a minus sign and returns
`(34, -5)`, so its per-wall value is `34 - 5/12`, not `34 + 5/12`. -/
theorem C2_route_parser_keeps_sign :
    parseFeetInches "34'-5\"" = (some 34, some 5) ∧
    routeParseLength "34'-5\"" = (some 34, some (-5)) ∧
    routeWallFeet "34'-5\"" = some ((34 : ℚ) - 5 / 12) ∧
    routeWallFeet "34'-5\"" ≠ some (to_decimal_feet 34 5) := by decide

/-! ### Claim C1 -/

/-- C1: the claim states that after an edit the recomputed
`total_linear_feet` changes by `to_decimal_feet(L) - to_decimal_feet(prev)`.
Evaluating the route on a stored analysis whose single wall is the
well-formed `10'-0"` and editing it to `10'-6"`: the recomputed total is
`9.5` (a change of `-1/2`), while
`to_decimal_feet(10'-6") - to_decimal_feet(10'-0") = +1/2`; the claimed
delta therefore fails on the code (the route's inline parser reads the
inches token of `10'-6"` as `-6`). -/
theorem C1_edit_total_change_wrong :
    totalLinearFeet [exWall] = some 10 ∧
    totalLinearFeet [{ exWall with length := "10'-6\"" }] = some (19 / 2) ∧
    (updateWallPost "analysis-1" 1 "10'-6\"" exData).2 =
      some { exData with
        walls := [{ exWall with length := "10'-6\"" }]
        icf_metrics := some { exMetrics with
          total_linear_feet := "9.5"
          wall_area_sqft := "76.0"
          concrete_volume_cuyd := "1.4" } } ∧
    to_decimal_feet 10 6 - to_decimal_feet 10 0 = 1 / 2 ∧
    (19 / 2 : ℚ) - 10 ≠ to_decimal_feet 10 6 - to_decimal_feet 10 0 := by decide

/-! ### Claim C6 -/

/-- C6 counterexample: with zero corners, zero walls and zero stored
totals (height at its default 8 ft, default settings), the quotation is
*not* all-zero: `labor.pourTimeHours = wallHeightFeet / 4 = 2` and
`horizontalRebar.count = horizontalRebarCourses = 3`, contradicting the
claim that every quotation field is zero. -/
theorem C6_zero_geometry_counterexample :
    (calcMaterials defaultSettings 0 0 8 0).pourTimeHours = 2 ∧
    (calcMaterials defaultSettings 0 0 8 0).horizontalRebarCount = 3 ∧
    ¬ ((calcMaterials defaultSettings 0 0 8 0).pourTimeHours = 0 ∧
       (calcMaterials defaultSettings 0 0 8 0).horizontalRebarCount = 0) := by decide

/-- C6 (amended): for zero corners/walls the recomputed
`total_linear_feet` is `0` and every quotation quantity is zero *except*
`horizontalRebar.count`, which equals the `horizontalRebarCourses` setting
(3 by default), and `labor.pourTimeHours`, which equals
`wallHeightFeet / 4` (2 at the default 8 ft); no division-by-zero occurs
(every divisor is a positive settings constant). -/
theorem C6_zero_geometry_amended :
    totalLinearFeet [] = some 0 ∧
    (calcMaterials defaultSettings 0 0 8 0).standardPanelsCount = 0 ∧
    (calcMaterials defaultSettings 0 0 8 0).standardPanelsAreaSqft = 0 ∧
    (calcMaterials defaultSettings 0 0 8 0).cornerPanelsCount = 0 ∧
    (calcMaterials defaultSettings 0 0 8 0).verticalRebarCount = 0 ∧
    (calcMaterials defaultSettings 0 0 8 0).verticalRebarLengthFeet = 0 ∧
    (calcMaterials defaultSettings 0 0 8 0).horizontalRebarLengthFeet = 0 ∧
    (calcMaterials defaultSettings 0 0 8 0).concreteVolumeCuYd = 0 ∧
    (calcMaterials defaultSettings 0 0 8 0).concreteVolumeWithWaste = 0 ∧
    (calcMaterials defaultSettings 0 0 8 0).formAlignmentCount = 0 ∧
    (calcMaterials defaultSettings 0 0 8 0).bracingCount = 0 ∧
    (calcMaterials defaultSettings 0 0 8 0).windowDoorBucksLinearFeet = 0 ∧
    (calcMaterials defaultSettings 0 0 8 0).fasteningStripsCount = 0 ∧
    (calcMaterials defaultSettings 0 0 8 0).crewDays = 0 ∧
    (calcMaterials defaultSettings 0 0 8 0).horizontalRebarCount =
      defaultSettings.horizontalRebarCourses ∧
    (calcMaterials defaultSettings 0 0 8 0).pourTimeHours = 8 / 4 := by decide

/-! ### Claim C3 -/

/-- C3 counterexample: a reachable run in which, with the wall height at
8 ft (the height rule not firing) and the concrete core at 10", a
`wall_thickness` event with value `10 ≥ 8` leaves
`verticalRebarSpacing = 16`, not the claimed 24.  The run from the default
settings: height set to 10 (spacing becomes 16), thickness set to 10,
height set back to 8 (core is `≥ 8`, so the spacing is kept), then the
`wall_thickness` event with value 10. -/
theorem C3_thickness_event_counterexample :
    (handleDimensionUpdate (handleDimensionUpdate (handleDimensionUpdate
        (handleDimensionUpdate defaultSettings (DimensionEvent.wall_height 10))
        (DimensionEvent.wall_thickness 10)) (DimensionEvent.wall_height 8))
        (DimensionEvent.wall_thickness 10)).verticalRebarSpacing = 16 ∧
    (handleDimensionUpdate (handleDimensionUpdate (handleDimensionUpdate
        (handleDimensionUpdate defaultSettings (DimensionEvent.wall_height 10))
        (DimensionEvent.wall_thickness 10)) (DimensionEvent.wall_height 8))
        (DimensionEvent.wall_thickness 10)).verticalRebarSpacing ≠ 24 := by decide

/-- C3 (amended): when the height rule does not fire (`wallHeightFeet ≤ 9`)
and the thickness is `≥ 8`, the *initial* adjustment sets
`verticalRebarType = "#5"` and `verticalRebarSpacing = 24`; a
`wall_thickness` settings-change event with value `≥ 8` sets
`verticalRebarType = "#5"` and syncs `concreteCore`, but leaves
`verticalRebarSpacing` unchanged (so it is 24 only if it already was). -/
theorem C3_amended_thickness_rule (s : ICFSettings) (wH : ℚ) (t : Int) (v : ℚ)
    (hH : wH ≤ 9) (ht : 8 ≤ t) (hv : 8 ≤ v) :
    (initialAdjust s wH t).verticalRebarType = "#5" ∧
    (initialAdjust s wH t).verticalRebarSpacing = 24 ∧
    (handleDimensionUpdate s (DimensionEvent.wall_thickness v)).verticalRebarType = "#5" ∧
    (handleDimensionUpdate s (DimensionEvent.wall_thickness v)).verticalRebarSpacing =
      s.verticalRebarSpacing ∧
    (handleDimensionUpdate s (DimensionEvent.wall_thickness v)).concreteCore = v := by
  have h9 : ¬ wH > 9 := not_lt.mpr hH
  simp [initialAdjust, handleDimensionUpdate, h9, ht, hv]

/-- Witness for C3 (amended) at Scenario C's numbers: height 8 ft,
thickness/core 10", event value 10. -/
theorem C3_amended_thickness_rule_witness :
    (8 : ℚ) ≤ 9 ∧ (8 : Int) ≤ 10 ∧ (8 : ℚ) ≤ 10 ∧
    ((initialAdjust defaultSettings 8 10).verticalRebarType = "#5" ∧
     (initialAdjust defaultSettings 8 10).verticalRebarSpacing = 24 ∧
     (handleDimensionUpdate defaultSettings (DimensionEvent.wall_thickness 10)).verticalRebarType = "#5" ∧
     (handleDimensionUpdate defaultSettings (DimensionEvent.wall_thickness 10)).verticalRebarSpacing =
       defaultSettings.verticalRebarSpacing ∧
     (handleDimensionUpdate defaultSettings (DimensionEvent.wall_thickness 10)).concreteCore = 10) :=
  ⟨by decide, by decide, by decide,
    C3_amended_thickness_rule defaultSettings 8 10 10 (by decide) (by decide) (by decide)⟩

/-! ### Claim C4 -/

/-- C4: with `wallHeightFeet = 10` and `wallThicknessIn = 6`, both the
initial adjustment and a `wall_height` event with value 10 produce
`verticalRebarType = "#5"`, `verticalRebarSpacing = 16`,
`bracingSpacing = 4`, and
`horizontalRebarCourses = max 3 ⌈10/3⌉ = 4`, from any starting settings. -/
theorem C4_auto_adjustment_determinism (s : ICFSettings) :
    ((initialAdjust s 10 6).verticalRebarType = "#5" ∧
     (initialAdjust s 10 6).verticalRebarSpacing = 16 ∧
     (initialAdjust s 10 6).bracingSpacing = 4 ∧
     (initialAdjust s 10 6).horizontalRebarCourses = max 3 (jsCeil (10 / 3)) ∧
     (initialAdjust s 10 6).horizontalRebarCourses = 4) ∧
    ((handleDimensionUpdate s (DimensionEvent.wall_height 10)).verticalRebarType = "#5" ∧
     (handleDimensionUpdate s (DimensionEvent.wall_height 10)).verticalRebarSpacing = 16 ∧
     (handleDimensionUpdate s (DimensionEvent.wall_height 10)).bracingSpacing = 4 ∧
     (handleDimensionUpdate s (DimensionEvent.wall_height 10)).horizontalRebarCourses = 4) := by
  have h10 : (10 : ℚ) > 9 := by norm_num
  have hceil : max 3 (jsCeil ((10 : ℚ) / 3)) = 4 := by decide
  simp [initialAdjust, handleDimensionUpdate, h10, hceil]

/-- A stored analysis record with one wall (id 1) and no `icf_metrics`
field. -/
def exDataNoMetrics : AnalysisData where
  walls := [exWall]
  corners := []
  icf_metrics := none
  rest := [("metadata", "m")]

/-! ### Claim C5 -/

/-- C5: if the edit references a wall id not present in the analysis (and
the parameters pass the falsy guard), the route answers the 404 not-found
error and never reaches `writeFile`: the stored record — walls,
`icf_metrics` and all — is left exactly as it was. -/
theorem C5_unknown_wall_id_aborts (data : AnalysisData) (analysisId : String)
    (wallId : Int) (newLength : String)
    (ha : analysisId ≠ "") (hwid : wallId ≠ 0) (hn : newLength ≠ "")
    (hmiss : ∀ w ∈ data.walls, w.id ≠ wallId) :
    updateWallPost analysisId wallId newLength data =
      (RouteResponse.notFound ("Wall with ID " ++ toString wallId ++ " not found"), none) ∧
    responseStatus (updateWallPost analysisId wallId newLength data).1 = 404 := by
  have hguard : ¬ (analysisId = "" ∨ wallId = 0 ∨ newLength = "") := by tauto
  have hidx : data.walls.findIdx? (fun w => w.id == wallId) = none := by
    rw [List.findIdx?_eq_none_iff]
    intro w hw'
    simp [hmiss w hw']
  constructor
  · unfold updateWallPost
    rw [if_neg hguard, hidx]
  · unfold updateWallPost
    rw [if_neg hguard, hidx]
    rfl

/-- Witness for C5: editing the unknown wall id 2 of the one-wall record
`exData` is rejected with 404 and no write. -/
theorem C5_unknown_wall_id_aborts_witness :
    ("analysis-1" : String) ≠ "" ∧ (2 : Int) ≠ 0 ∧ ("12'-0\"" : String) ≠ "" ∧
    (∀ w ∈ exData.walls, w.id ≠ 2) ∧
    updateWallPost "analysis-1" 2 "12'-0\"" exData =
      (RouteResponse.notFound ("Wall with ID " ++ toString (2 : Int) ++ " not found"), none) :=
  ⟨by decide, by decide, by decide, by decide,
    (C5_unknown_wall_id_aborts exData "analysis-1" 2 "12'-0\""
      (by decide) (by decide) (by decide) (by decide)).1⟩

/-! ### Claim C8 -/

/-- C8: a successful edit overwrites only the target wall's `length`: the
record written back differs from the stored one only in the target wall's
`length` and in the recomputed metrics; the target wall keeps its
`length_pixels`, corner ids and coordinates, every other wall is
untouched, and the corners list is unchanged. -/
theorem C8_edit_overwrites_only_length (data : AnalysisData) (analysisId : String)
    (wallId : Int) (newLength : String) (i : Nat) (w : Wall)
    (ha : analysisId ≠ "") (hwid : wallId ≠ 0) (hn : newLength ≠ "")
    (hidx : data.walls.findIdx? (fun x => x.id == wallId) = some i)
    (hget : data.walls.get? i = some w) :
    (updateWallPost analysisId wallId newLength data).2 =
      some { data with
        walls := data.walls.set i { w with length := newLength }
        icf_metrics := data.icf_metrics.map
          (recomputeMetrics (data.walls.set i { w with length := newLength })) } ∧
    (data.walls.set i { w with length := newLength }).get? i =
      some { w with length := newLength } ∧
    (∀ j, j ≠ i → (data.walls.set i { w with length := newLength }).get? j = data.walls.get? j) ∧
    ({ w with length := newLength } : Wall).length_pixels = w.length_pixels ∧
    ({ w with length := newLength } : Wall).start_corner_id = w.start_corner_id ∧
    ({ w with length := newLength } : Wall).end_corner_id = w.end_corner_id ∧
    ({ w with length := newLength } : Wall).start_x = w.start_x ∧
    ({ w with length := newLength } : Wall).start_y = w.start_y ∧
    ({ w with length := newLength } : Wall).end_x = w.end_x ∧
    ({ w with length := newLength } : Wall).end_y = w.end_y ∧
    ({ data with
        walls := data.walls.set i { w with length := newLength }
        icf_metrics := data.icf_metrics.map
          (recomputeMetrics (data.walls.set i { w with length := newLength })) } :
      AnalysisData).corners = data.corners := by
  have hguard : ¬ (analysisId = "" ∨ wallId = 0 ∨ newLength = "") := by tauto
  have hlen : i < data.walls.length := by
    rcases List.get?_eq_some.mp hget with ⟨h1, _⟩
    exact h1
  refine ⟨?_, ?_, ?_, rfl, rfl, rfl, rfl, rfl, rfl, rfl, rfl⟩
  · unfold updateWallPost
    rw [if_neg hguard, hidx]
    dsimp only
    rw [hget]
  · rw [List.get?_eq_getElem?, List.getElem?_set_self (by simpa using hlen)]
  · intro j hj
    rw [List.get?_eq_getElem?, List.get?_eq_getElem?, List.getElem?_set_ne (Ne.symm hj)]

/-- Witness for C8: editing wall 1 of `exData` to `12'-0"` writes back the
record with only that wall's `length` overwritten (plus the metric
recompute). -/
theorem C8_edit_overwrites_only_length_witness :
    ("analysis-1" : String) ≠ "" ∧ (1 : Int) ≠ 0 ∧ ("12'-0\"" : String) ≠ "" ∧
    exData.walls.findIdx? (fun x => x.id == 1) = some 0 ∧
    exData.walls.get? 0 = some exWall ∧
    (updateWallPost "analysis-1" 1 "12'-0\"" exData).2 =
      some { exData with
        walls := exData.walls.set 0 { exWall with length := "12'-0\"" }
        icf_metrics := exData.icf_metrics.map
          (recomputeMetrics (exData.walls.set 0 { exWall with length := "12'-0\"" })) } :=
  ⟨by decide, by decide, by decide, by decide, by decide,
    (C8_edit_overwrites_only_length exData "analysis-1" 1 "12'-0\"" 0 exWall
      (by decide) (by decide) (by decide) (by decide) (by decide)).1⟩

/-! ### Claim C9 -/

/-- C9: a request whose `wallId` is 0 or whose `newLength` is the empty
string is caught by the falsy guard and answered with HTTP 400
`Missing required parameters` before any wall lookup, with no write — for
every stored record, including one that does contain a wall with id 0. -/
theorem C9_falsy_params_rejected (data : AnalysisData) (analysisId : String)
    (wallId : Int) (newLength : String) (h : wallId = 0 ∨ newLength = "") :
    updateWallPost analysisId wallId newLength data =
      (RouteResponse.badRequest "Missing required parameters", none) ∧
    responseStatus (updateWallPost analysisId wallId newLength data).1 = 400 := by
  have hguard : analysisId = "" ∨ wallId = 0 ∨ newLength = "" := by tauto
  constructor
  · unfold updateWallPost
    rw [if_pos hguard]
  · unfold updateWallPost
    rw [if_pos hguard]
    rfl

/-- Witness for C9: the record `exData0` does contain a wall with id 0
(at index 0), yet the edit request targeting `wallId = 0` is rejected with
the 400 error and no write. -/
theorem C9_falsy_params_rejected_witness :
    ((0 : Int) = 0 ∨ ("5'-0\"" : String) = "") ∧
    exData0.walls.findIdx? (fun x => x.id == 0) = some 0 ∧
    updateWallPost "analysis-1" 0 "5'-0\"" exData0 =
      (RouteResponse.badRequest "Missing required parameters", none) :=
  ⟨Or.inl rfl, by decide,
    (C9_falsy_params_rejected exData0 "analysis-1" 0 "5'-0\"" (Or.inl rfl)).1⟩

/-! ### Claim C10 -/

/-- C10: when the stored record has no `icf_metrics` field, an edit of an
existing wall still succeeds: the new length is persisted and returned,
no metric recompute happens (the saved record's `icf_metrics` stays
absent, its corners and remaining fields are unchanged), and the
response's `updatedMetrics` is `undefined` (`none`). -/
theorem C10_edit_without_metrics (data : AnalysisData) (analysisId : String)
    (wallId : Int) (newLength : String) (i : Nat) (w : Wall)
    (ha : analysisId ≠ "") (hwid : wallId ≠ 0) (hn : newLength ≠ "")
    (hm : data.icf_metrics = none)
    (hidx : data.walls.findIdx? (fun x => x.id == wallId) = some i)
    (hget : data.walls.get? i = some w) :
    updateWallPost analysisId wallId newLength data =
      (RouteResponse.ok ("Wall " ++ toString wallId ++ " updated successfully")
        { w with length := newLength } none,
       some { data with
         walls := data.walls.set i { w with length := newLength }
         icf_metrics := none }) ∧
    ({ w with length := newLength } : Wall).length = newLength := by
  have hguard : ¬ (analysisId = "" ∨ wallId = 0 ∨ newLength = "") := by tauto
  have hlen : i < data.walls.length := by
    rcases List.get?_eq_some.mp hget with ⟨h1, _⟩
    exact h1
  constructor
  · unfold updateWallPost
    rw [if_neg hguard, hidx]
    dsimp only
    rw [hget, hm]
    dsimp only
    rw [List.get?_eq_getElem?, List.getElem?_set_self (by simpa using hlen)]
    rfl
  · rfl

/-- Witness for C10: editing wall 1 of the metrics-less record
`exDataNoMetrics` succeeds, persists only the new length, and returns no
`updatedMetrics`. -/
theorem C10_edit_without_metrics_witness :
    ("analysis-1" : String) ≠ "" ∧ (1 : Int) ≠ 0 ∧ ("12'-0\"" : String) ≠ "" ∧
    exDataNoMetrics.icf_metrics = none ∧
    exDataNoMetrics.walls.findIdx? (fun x => x.id == 1) = some 0 ∧
    exDataNoMetrics.walls.get? 0 = some exWall ∧
    updateWallPost "analysis-1" 1 "12'-0\"" exDataNoMetrics =
      (RouteResponse.ok ("Wall " ++ toString (1 : Int) ++ " updated successfully")
        { exWall with length := "12'-0\"" } none,
       some { exDataNoMetrics with
         walls := exDataNoMetrics.walls.set 0 { exWall with length := "12'-0\"" }
         icf_metrics := none }) :=
  ⟨by decide, by decide, by decide, by decide, by decide, by decide,
    (C10_edit_without_metrics exDataNoMetrics "analysis-1" 1 "12'-0\"" 0 exWall
      (by decide) (by decide) (by decide) (by decide) (by decide) (by decide)).1⟩

/-- Witness for C4 at the default settings. -/
theorem C4_auto_adjustment_determinism_witness :
    (initialAdjust defaultSettings 10 6).verticalRebarType = "#5" ∧
    (initialAdjust defaultSettings 10 6).verticalRebarSpacing = 16 ∧
    (initialAdjust defaultSettings 10 6).bracingSpacing = 4 ∧
    (initialAdjust defaultSettings 10 6).horizontalRebarCourses = 4 :=
  ⟨(C4_auto_adjustment_determinism defaultSettings).1.1,
   (C4_auto_adjustment_determinism defaultSettings).1.2.1,
   (C4_auto_adjustment_determinism defaultSettings).1.2.2.1,
   (C4_auto_adjustment_determinism defaultSettings).1.2.2.2.2⟩
